import Mathlib

/-
  Verification of the pyXcute task runner (src/xcute/__init__.py) against its
  natural-language specification.

  The development shallowly embeds the task dispatch/lifecycle engine:
  task declarations become the inductive type PyVal, the process-wide conf
  dictionary becomes the structure St, and the mutually recursive functions
  run / do_run / run_task / the executor __call__ methods become a fuel-indexed
  interpreter returning Option (Except PyErr Unit × St).  Observable behaviour
  (log output, child-process launches, user-callable invocations) is recorded
  in an event trace inside St.
-/

namespace Xcute

/-- Python exceptions raised by the engine, as a closed error type.
  exc models a generic Exception carrying its message; procErr models
  subprocess.CalledProcessError for a child process that exited non-zero;
  typeErr models TypeError (wrong call arity); noActive models the
  RuntimeError raised by a bare raise with no active exception. -/
inductive PyErr where
  | exc (msg : String)
  | procErr (argv : List String)
  | typeErr (msg : String)
  | noActive
  deriving Repr, DecidableEq

/-- Observable events of one run: printed lines (the log function, gated on
  conf tty), child-process executions (subprocess.check_call, recorded as the
  argument vector), and invocations of opaque user callables. -/
inductive Event where
  | printed (s : String)
  | exec (argv : List String)
  | prim (id : String)
  deriving Repr, DecidableEq

/-- Python values that can appear as task declarations, covering the shapes
  the engine inspects: strings, lists, None, booleans, integers, Exception
  instances and the Exception class, the executor objects Cmd / Chain / Task /
  Throw / Try, and an opaque user callable (prim) which records an event when
  invoked and optionally raises.  Executors not reached by any claim (Skip,
  Log, Bump as an in-engine unit) are omitted from this value universe. -/
inductive PyVal where
  | str (s : String)
  | list (xs : List PyVal)
  | pyNone
  | pyBool (b : Bool)
  | pyInt (n : Int)
  | excInst (msg : String)
  | excClass
  | cmdU (cmds : List String)
  | chainU (lists : List (List PyVal))
  | taskU (name : String)
  | throwU (err : PyVal)
  | tryU (tasks : List PyVal)
  | prim (id : String) (fails : Bool)
  deriving Repr

/-- The process-wide conf dictionary together with the observation trace.
  tasks embeds conf["tasks"]; currTask embeds conf.get("curr_task"); vars
  embeds the string-valued formatting entries (version, pkg_name, ...); tty
  embeds conf["tty"]; failingCmds is the environment oracle telling which
  child command lines exit non-zero; lastErr models the ambient
  currently-handled exception used by a bare raise; events is the trace. -/
structure St where
  tasks : List (String × PyVal)
  currTask : Option String
  vars : List (String × String)
  tty : Bool
  failingCmds : List (List String)
  lastErr : Option PyErr
  events : List Event
  deriving Repr

/-- Embeds the log function: print the line only when conf["tty"] is true. -/
def St.log (st : St) (s : String) : St :=
  if st.tty then { st with events := st.events ++ [Event.printed s] } else st

/-- Python truthiness for the modelled values (used by the engine in
  run_task, do_run and Throw.__call__). -/
def truthy : PyVal → Bool
  | .str s => !(s == "")
  | .list xs => !xs.isEmpty
  | .pyNone => false
  | .pyBool b => b
  | .pyInt n => !(n == 0)
  | _ => true

/-- Python callability for the modelled values: the executor objects, user
  callables and exception classes are callable; plain data and exception
  instances are not. -/
def callable : PyVal → Bool
  | .excClass => true
  | .cmdU _ => true
  | .chainU _ => true
  | .taskU _ => true
  | .throwU _ => true
  | .tryU _ => true
  | .prim _ _ => true
  | _ => false

/-- A minimal model of repr used in the "{task!r} is not callable" message. -/
def pyRepr : PyVal → String
  | .str s => s
  | .pyNone => "None"
  | .pyBool true => "True"
  | .pyBool false => "False"
  | .pyInt n => toString n
  | .excInst m => "Exception(" ++ m ++ ")"
  | _ => "<object>"

/-- str of an exception, as printed by log(err). -/
def errStr : PyErr → String
  | .exc m => m
  | .procErr argv => "Command " ++ (" ".intercalate argv) ++ " returned non-zero exit status"
  | .typeErr m => m
  | .noActive => "No active exception to re-raise"

/-- Embeds the task_converter with its four registered matchers, applied
  first-match-wins in registration order:
  1. a string that is a key of conf["tasks"] becomes Task(name);
  2. any other string becomes Cmd(s);
  3. an iterable (among the modelled values: a list) becomes Chain(list),
     i.e. a Chain with that single task list (strings, though iterable in
     Python, are consumed by the earlier matchers);
  4. an Exception instance or Exception subclass becomes Throw(err).
  Anything else, executor objects included, is returned unchanged. -/
def transform (tasks : List (String × PyVal)) : PyVal → PyVal
  | .str s => if (tasks.lookup s).isSome then .taskU s else .cmdU [s]
  | .list xs => .chainU [xs]
  | .excInst m => .throwU (.excInst m)
  | .excClass => .throwU .excClass
  | v => v

/-- Scanner modes for the str.format model. -/
inductive FmtMode where
  | plain
  | name (acc : List Char)

/-- Model of str.format(**conf) restricted to what the engine feeds it:
  placeholders of the shape between a left and a right brace naming a
  string-valued conf entry, and doubled braces as escapes.  Format specs and
  non-string conf values are outside the model.  Returns none on a missing
  key (KeyError) or malformed braces (ValueError). -/
def fmtGo (vars : List (String × String)) : FmtMode → List Char → Option (List Char)
  | .plain, [] => some []
  | .plain, '{' :: '{' :: rest => (fmtGo vars .plain rest).map (fun l => '{' :: l)
  | .plain, '}' :: '}' :: rest => (fmtGo vars .plain rest).map (fun l => '}' :: l)
  | .plain, '{' :: rest => fmtGo vars (.name []) rest
  | .plain, '}' :: _ => Option.none
  | .plain, c :: rest => (fmtGo vars .plain rest).map (fun l => c :: l)
  | .name _, [] => Option.none
  | .name acc, '}' :: rest =>
    match vars.lookup (String.mk acc.reverse) with
    | some v => (fmtGo vars .plain rest).map (fun l => v.data ++ l)
    | Option.none => Option.none
  | .name acc, c :: rest => fmtGo vars (.name (c :: acc)) rest

/-- Embeds the source function f: text.format(**conf), over the modelled
  string-valued conf entries. -/
def f (vars : List (String × String)) (text : String) : Option String :=
  (fmtGo vars .plain text.data).map (fun l => String.mk l)

/-- Scanner modes for the shlex.split model: between tokens, inside a token,
  inside single quotes, inside double quotes. -/
inductive LexMode where
  | out
  | tok (acc : List Char)
  | sgl (acc : List Char)
  | dbl (acc : List Char)

/-- Is the character token-separating whitespace for shlex. -/
def isWs (c : Char) : Bool :=
  c == ' ' || c == '\t' || c == '\r' || c == '\n'

/-- Model of shlex.split in posix mode without comment handling: whitespace
  separates tokens; single quotes group literally; double quotes group with
  backslash escaping a double quote or a backslash; outside quotes a
  backslash escapes the next character.  Returns none where shlex raises
  (unclosed quote, trailing escape). -/
def shlexGo : LexMode → List Char → Option (List String)
  | .out, [] => some []
  | .out, '\\' :: c :: rest => shlexGo (.tok [c]) rest
  | .out, '\\' :: [] => Option.none
  | .out, '\'' :: rest => shlexGo (.sgl []) rest
  | .out, '"' :: rest => shlexGo (.dbl []) rest
  | .out, c :: rest =>
    if isWs c then shlexGo .out rest else shlexGo (.tok [c]) rest
  | .tok acc, [] => some [String.mk acc]
  | .tok acc, '\\' :: c :: rest => shlexGo (.tok (acc ++ [c])) rest
  | .tok _, '\\' :: [] => Option.none
  | .tok acc, '\'' :: rest => shlexGo (.sgl acc) rest
  | .tok acc, '"' :: rest => shlexGo (.dbl acc) rest
  | .tok acc, c :: rest =>
    if isWs c then (shlexGo .out rest).map (fun ts => String.mk acc :: ts)
    else shlexGo (.tok (acc ++ [c])) rest
  | .sgl _, [] => Option.none
  | .sgl acc, '\'' :: rest => shlexGo (.tok acc) rest
  | .sgl acc, c :: rest => shlexGo (.sgl (acc ++ [c])) rest
  | .dbl _, [] => Option.none
  | .dbl acc, '"' :: rest => shlexGo (.tok acc) rest
  | .dbl acc, '\\' :: c :: rest =>
    if c == '"' || c == '\\' then shlexGo (.dbl (acc ++ [c])) rest
    else shlexGo (.dbl (acc ++ ['\\', c])) rest
  | .dbl _, '\\' :: [] => Option.none
  | .dbl acc, c :: rest => shlexGo (.dbl (acc ++ [c])) rest

/-- shlex.split of a whole string. -/
def shlexSplit (s : String) : Option (List String) :=
  shlexGo .out s.data

/-- Result of an engine step: none means the fuel ran out (the Python
  program would still be recursing); otherwise the Except outcome together
  with the final state.  Side effects survive a raised exception. -/
abbrev Res (α : Type) : Type := Option (Except PyErr α × St)

/-- Return a value. -/
def okR {α : Type} (a : α) (st : St) : Res α := some (.ok a, st)

/-- Raise an exception. -/
def raiseR {α : Type} (e : PyErr) (st : St) : Res α := some (.error e, st)

/-- Embeds Cmd.__call__.  For each command template: expand it with f,
  tokenize with shlex.split, rebind args to the tokens followed by the
  previous args (the source reassigns the args variable inside the loop, so
  later templates see the tokens accumulated by earlier ones), log the line,
  and run it as a child process, failing fast on a non-zero exit. -/
def cmdCall (cmds : List String) (args : List String) (st : St) :
    Except PyErr Unit × St :=
  match cmds with
  | [] => (.ok (), st)
  | c :: rest =>
    match f st.vars c with
    | Option.none => (.error (.exc ("KeyError: " ++ c)), st)
    | some expanded =>
      match shlexSplit expanded with
      | Option.none => (.error (.exc "No closing quotation"), st)
      | some toks =>
        let args2 := toks ++ args
        let st := st.log ("> Cmd: " ++ (" ".intercalate args2))
        let st := { st with events := st.events ++ [Event.exec args2] }
        if args2 ∈ st.failingCmds then (.error (.procErr args2), st)
        else cmdCall rest args2 st

mutual

/-- Embeds run(name, *args): raise if the name is not a registry key, then
  do_run(name_pre), then the main task inside try / except / else / finally:
  on failure of the main body try the _err hook and re-raise the original
  error when it is absent or returns False; on success run the _post hook;
  always run the _fin hook last (runFin). -/
def runName : Nat → String → List String → St → Res Unit
  | 0, _, _, _ => Option.none
  | fuel + 1, name, args, st =>
    if (st.tasks.lookup name).isNone then
      raiseR (.exc ("Cannot find " ++ name ++ " in the cute file")) st
    else
      match doRun fuel (name ++ "_pre") [] st with
      | Option.none => Option.none
      | some (.error e, st1) => raiseR e st1
      | some (.ok _, st1) =>
        match doRun fuel name args st1 with
        | Option.none => Option.none
        | some (.ok _, st2) =>
          match doRun fuel (name ++ "_post") [] st2 with
          | Option.none => Option.none
          | some (.error e, st3) => runFin fuel name (some e) st3
          | some (.ok _, st3) => runFin fuel name Option.none st3
        | some (.error e, st2) =>
          let st2 := { st2 with lastErr := some e }
          match doRun fuel (name ++ "_err") [] st2 with
          | Option.none => Option.none
          | some (.error e2, st3) => runFin fuel name (some e2) st3
          | some (.ok handled, st3) =>
            if handled then runFin fuel name Option.none st3
            else runFin fuel name (some e) st3

/-- The finally clause of run: do_run(name_fin); an error raised there
  replaces any pending error, otherwise the pending error (if any) is
  re-raised after the hook. -/
def runFin : Nat → String → Option PyErr → St → Res Unit
  | 0, _, _, _ => Option.none
  | fuel + 1, name, pending, st =>
    match doRun fuel (name ++ "_fin") [] st with
    | Option.none => Option.none
    | some (.error e3, st1) => raiseR e3 st1
    | some (.ok _, st1) =>
      match pending with
      | some e => raiseR e st1
      | Option.none => okR () st1

/-- Embeds do_run(name, *args): look the name up in conf["tasks"]; a missing
  or falsy entry returns False without running anything; otherwise enter the
  task (enter_task: save conf["curr_task"], overwrite it with the name, log
  the task banner), run the task, and return True.  The enter_task context
  manager has no try lowering around its yield, so the saved name is
  restored only on normal completion; an exception propagates with the
  overwritten current-task name left in place. -/
def doRun : Nat → String → List String → St → Res Bool
  | 0, _, _, _ => Option.none
  | fuel + 1, name, args, st =>
    match st.tasks.lookup name with
    | Option.none => okR false st
    | some task =>
      if !(truthy task) then okR false st
      else
        let saved := st.currTask
        let st1 := { st with currTask := some name }
        let st1 := st1.log ("> Task: " ++ name)
        match runTask fuel task args st1 with
        | Option.none => Option.none
        | some (.ok _, st2) => okR true { st2 with currTask := saved }
        | some (.error e, st2) => raiseR e st2

/-- Embeds run_task(task, *args): convert through the task_converter, return
  silently when the converted value is falsy, raise a generic Exception when
  it is not callable, and otherwise call it with the args. -/
def runTask : Nat → PyVal → List String → St → Res Unit
  | 0, _, _, _ => Option.none
  | fuel + 1, task, args, st =>
    let t := transform st.tasks task
    if !(truthy t) then okR () st
    else if !(callable t) then
      raiseR (.exc (pyRepr t ++ " is not callable")) st
    else callUnit fuel t args st

/-- The __call__ dispatch over the executor objects:
  Cmd runs its command templates (cmdCall); Chain runs every item of every
  task list in order through run_task, failing fast; Task re-enters run for
  the referenced name; Throw takes no positional arguments and raises
  according to its configured error (a falsy error is a bare raise of the
  ambient exception); Try runs its tasks, logging and swallowing any
  exception a task raises; prim records its event and optionally raises.
  The remaining constructors are unreachable from runTask. -/
def callUnit : Nat → PyVal → List String → St → Res Unit
  | 0, _, _, _ => Option.none
  | _ + 1, .cmdU cmds, args, st => some (cmdCall cmds args st)
  | fuel + 1, .chainU lists, args, st => runItems fuel lists.flatten args st
  | fuel + 1, .taskU name, args, st => runName fuel name args st
  | _ + 1, .throwU err, args, st =>
    if !args.isEmpty then
      raiseR (.typeErr "Throw takes no positional arguments") st
    else if !(truthy err) then
      match st.lastErr with
      | some e => raiseR e st
      | Option.none => raiseR .noActive st
    else
      match err with
      | .excInst m => raiseR (.exc m) st
      | .str s => raiseR (.exc s) st
      | .excClass => raiseR (.exc "") st
      | .prim _ _ => raiseR (.typeErr "exceptions must derive from BaseException") st
      | .cmdU _ => raiseR (.typeErr "exceptions must derive from BaseException") st
      | .chainU _ => raiseR (.typeErr "exceptions must derive from BaseException") st
      | .taskU _ => raiseR (.typeErr "exceptions must derive from BaseException") st
      | .throwU _ => raiseR (.typeErr "exceptions must derive from BaseException") st
      | .tryU _ => raiseR (.typeErr "exceptions must derive from BaseException") st
      | _ => okR () st
  | fuel + 1, .tryU tasks, args, st => runTryItems fuel tasks args st
  | _ + 1, .prim id fails, _, st =>
    let st := { st with events := st.events ++ [Event.prim id] }
    if fails then raiseR (.exc ("prim " ++ id ++ " failed")) st
    else okR () st
  | _ + 1, _, _, st => raiseR (.exc "not callable") st

/-- The loop body of Chain.__call__: run each item through run_task with the
  same incoming args, propagating the first failure. -/
def runItems : Nat → List PyVal → List String → St → Res Unit
  | 0, _, _, _ => Option.none
  | _ + 1, [], _, st => okR () st
  | fuel + 1, t :: rest, args, st =>
    match runTask fuel t args st with
    | Option.none => Option.none
    | some (.ok _, st1) => runItems fuel rest args st1
    | some (.error e, st1) => some (.error e, st1)

/-- The loop body of Try.__call__: run each task through run_task; a raised
  exception is recorded as the ambient exception, logged, and execution
  continues with the next task. -/
def runTryItems : Nat → List PyVal → List String → St → Res Unit
  | 0, _, _, _ => Option.none
  | _ + 1, [], _, st => okR () st
  | fuel + 1, t :: rest, args, st =>
    match runTask fuel t args st with
    | Option.none => Option.none
    | some (.ok _, st1) => runTryItems fuel rest args st1
    | some (.error e, st1) =>
      let st1 := { st1 with lastErr := some e }
      let st1 := st1.log (errStr e)
      runTryItems fuel rest args st1

end

/-
  The version-bump machinery: split_version, the semver bumper and the core
  of Bump.__call__.  Text is manipulated as character lists.
-/

/-- The literal part of the split_version search pattern. -/
def versionLit : List Char := "__version__ = ".data

/-- Is the character one of the two quote characters of the pattern. -/
def isQuoteCh (c : Char) : Bool := c == '\'' || c == '"'

/-- One attempt of the regular expression of split_version at the current
  position: the literal, then a quote, then a nonempty maximal run of
  non-quote characters (the capture group).  Returns the consumed head
  (literal and quote), the capture, and the remainder. -/
def matchVersionAt (cs : List Char) : Option (List Char × List Char × List Char) :=
  if versionLit.isPrefixOf cs then
    match cs.drop versionLit.length with
    | q :: rest =>
      if isQuoteCh q then
        let cap := rest.takeWhile (fun c => !(isQuoteCh c))
        if cap.isEmpty then Option.none
        else some (versionLit ++ [q], cap, rest.drop cap.length)
      else Option.none
    | [] => Option.none
  else Option.none

/-- Leftmost-match search for the split_version pattern, as re.search scans
  the text position by position. -/
def searchVersion : List Char → Option (List Char × List Char × List Char)
  | [] => Option.none
  | c :: rest =>
    match matchVersionAt (c :: rest) with
    | some r => some r
    | Option.none =>
      match searchVersion rest with
      | some (l, v, r) => some (c :: l, v, r)
      | Option.none => Option.none

/-- Embeds split_version: split the text into the part before the captured
  version number (quote included), the version number, and the rest.  When
  the pattern does not match, the source raises AttributeError on the None
  match object; that is the none case. -/
def split_version (text : String) : Option (String × String × String) :=
  (searchVersion text.data).map
    (fun t => (String.mk t.1, String.mk t.2.1, String.mk t.2.2))

/-- Modelled from the semver library (an external dependency of the source,
  not code of this repository): a character allowed inside a prerelease or
  build identifier. -/
def isIdentChar (c : Char) : Bool := c.isAlphanum || c == '-'

/-- Split a character list at every occurrence of the separator. -/
def splitOnCh (sep : Char) : List Char → List (List Char)
  | [] => [[]]
  | c :: rest =>
    if c == sep then [] :: splitOnCh sep rest
    else
      match splitOnCh sep rest with
      | [] => [[c]]
      | g :: gs => (c :: g) :: gs

/-- Split at the first occurrence of the separator, when there is one,
  returning the part before it and the remainder after it. -/
def splitFirst (sep : Char) : List Char → List Char × Option (List Char)
  | [] => ([], Option.none)
  | c :: rest =>
    if c == sep then ([], some rest)
    else
      let r := splitFirst sep rest
      (c :: r.1, r.2)

/-- The numeric value of a digit string. -/
def natOfDigits (cs : List Char) : Nat :=
  cs.foldl (fun acc c => acc * 10 + (c.toNat - 48)) 0

/-- Modelled from the semver library: a numeric version-core component,
  digits only with no leading zero. -/
def validCoreNum (cs : List Char) : Bool :=
  !cs.isEmpty && cs.all Char.isDigit &&
    (cs.length == 1 || !(cs.headD '0' == '0'))

/-- Modelled from the semver library: a prerelease identifier, nonempty over
  the identifier alphabet, and with no leading zero when purely numeric. -/
def validPreId (cs : List Char) : Bool :=
  !cs.isEmpty && cs.all isIdentChar &&
    (!(cs.all Char.isDigit) || cs.length == 1 || !(cs.headD '0' == '0'))

/-- Modelled from the semver library: a build identifier, nonempty over the
  identifier alphabet. -/
def validBuildId (cs : List Char) : Bool :=
  !cs.isEmpty && cs.all isIdentChar

/-- The parsed version core. -/
structure SemVer where
  major : Nat
  minor : Nat
  patch : Nat
  deriving Repr, DecidableEq

/-- Modelled from the semver library: parse the MAJOR.MINOR.PATCH core. -/
def parseCore (cs : List Char) : Option SemVer :=
  match splitOnCh '.' cs with
  | [ma, mi, pa] =>
    if validCoreNum ma && validCoreNum mi && validCoreNum pa then
      some ⟨natOfDigits ma, natOfDigits mi, natOfDigits pa⟩
    else Option.none
  | _ => Option.none

/-- Modelled from the semver library: parse the core with an optional
  prerelease part introduced by the first hyphen (later hyphens belong to
  the prerelease, whose dot-separated identifiers are validated). -/
def parseMainPre (cs : List Char) : Option SemVer :=
  match splitFirst '-' cs with
  | (core, Option.none) => parseCore core
  | (core, some pre) =>
    if (splitOnCh '.' pre).all validPreId then parseCore core
    else Option.none

/-- Modelled from the semver library: semver.parse as a validity check of
  MAJOR.MINOR.PATCH with optional -prerelease and +build parts, returning
  the version core.  Returns none where semver.parse raises ValueError. -/
def parseSemver (s : String) : Option SemVer :=
  match splitFirst '+' s.data with
  | (mainPre, Option.none) => parseMainPre mainPre
  | (mainPre, some build) =>
    if (splitOnCh '.' build).all validBuildId then parseMainPre mainPre
    else Option.none

/-- Render a version core back to a string. -/
def renderSemver (v : SemVer) : String :=
  toString v.major ++ "." ++ toString v.minor ++ "." ++ toString v.patch

/-- Modelled from the semver library: semver.bump_major. -/
def bump_major (s : String) : Option String :=
  (parseSemver s).map (fun v => renderSemver ⟨v.major + 1, 0, 0⟩)

/-- Modelled from the semver library: semver.bump_minor. -/
def bump_minor (s : String) : Option String :=
  (parseSemver s).map (fun v => renderSemver ⟨v.major, v.minor + 1, 0⟩)

/-- Modelled from the semver library: semver.bump_patch. -/
def bump_patch (s : String) : Option String :=
  (parseSemver s).map (fun v => renderSemver ⟨v.major, v.minor, v.patch + 1⟩)

/-- Embeds semver_bumper(old_version, part): when the semver module has a
  callable bump attribute for the part (the documented parts patch, minor
  and major), bump the old version with it; otherwise treat the part itself
  as the new version after validating it with semver.parse.  none models a
  raised ValueError. -/
def semver_bumper (old_version : String) (part : String) : Option String :=
  match part with
  | "major" => bump_major old_version
  | "minor" => bump_minor old_version
  | "patch" => bump_patch old_version
  | _ => if (parseSemver part).isSome then some part else Option.none

/-- The outcome of the core of Bump.__call__: the rewritten text of the
  version file, and the values recorded into conf under old_version and
  version. -/
structure BumpOutcome where
  newText : String
  old_version : String
  version : String
  deriving Repr, DecidableEq

/-- Embeds Bump.__call__ up to and including the rewrite of the version file
  and the two conf assignments: split the file text around the version
  number, record the old version, compute the new version with the bumper
  (semver_bumper, with part defaulting to patch and at most one positional
  argument), record it, and write back left, new version and right.  The
  subsequent best-effort update of setup.cfg is outside this model, as is
  the filename templating.  none models a raised exception (no version
  pattern in the file, an invalid version, or excess arguments). -/
def bumpCall (fileText : String) (args : List String) : Option BumpOutcome :=
  match split_version fileText with
  | Option.none => Option.none
  | some (left, old, right) =>
    match args with
    | [] =>
      (semver_bumper old "patch").map (fun v => ⟨left ++ v ++ right, old, v⟩)
    | [part] =>
      (semver_bumper old part).map (fun v => ⟨left ++ v ++ right, old, v⟩)
    | _ => Option.none

/-
  Observation helpers and concrete fixtures used by the theorems.
-/

/-- The outcome of an Except, with the raised error when there is one. -/
def resCode {α : Type} : Except PyErr α → Option PyErr
  | .ok _ => Option.none
  | .error e => some e

/-- The user-callable invocations of a trace, in order. -/
def primTrace (st : St) : List String :=
  st.events.filterMap (fun e =>
    match e with
    | .prim id => some id
    | _ => Option.none)

/-- The child-process launches of a trace, in order. -/
def execTrace (st : St) : List (List String) :=
  st.events.filterMap (fun e =>
    match e with
    | .exec argv => some argv
    | _ => Option.none)

/-- An initial conf for a given task registry: no current task, no
  formatting variables, no terminal, every child process succeeding, no
  ambient exception, empty trace. -/
def initSt (tasks : List (String × PyVal)) : St :=
  { tasks := tasks, currTask := Option.none, vars := [], tty := false,
    failingCmds := [], lastErr := Option.none, events := [] }

/-- A registry for the lifecycle theorems: a main task t (an observable user
  callable which fails when mainFails), and each of the four lifecycle hooks
  registered or not according to the four flags. -/
def hookReg (mainFails hp hpo he hf : Bool) : List (String × PyVal) :=
  [("t", PyVal.prim "main" mainFails)]
    ++ (if hp then [("t_pre", PyVal.prim "pre" false)] else [])
    ++ (if hpo then [("t_post", PyVal.prim "post" false)] else [])
    ++ (if he then [("t_err", PyVal.prim "err" false)] else [])
    ++ (if hf then [("t_fin", PyVal.prim "fin" false)] else [])

/-- A registry whose t_pre hook fails, with the other hooks registered or
  not according to the flags. -/
def preFailReg (hpo he hf : Bool) : List (String × PyVal) :=
  [("t", PyVal.prim "main" false), ("t_pre", PyVal.prim "pre" true)]
    ++ (if hpo then [("t_post", PyVal.prim "post" false)] else [])
    ++ (if he then [("t_err", PyVal.prim "err" false)] else [])
    ++ (if hf then [("t_fin", PyVal.prim "fin" false)] else [])

/-- Whether a value is an ErrorThrow (Throw) unit. -/
def isThrowU : PyVal → Bool
  | .throwU _ => true
  | _ => false

/-- A version file text with surrounding lines and a second, later version
  assignment that must stay untouched. -/
def c8Text : String :=
  "foo = 1\n__version__ = \"1.2.3\"\nbar\n__version__ = \"9.9.9\"\n"

/-- A one-task registry whose task succeeds, for the current-task witness. -/
def c4wSt : St := initSt [("t", PyVal.prim "m" false)]

/-- The state produced by running that task: its event recorded, everything
  else as before. -/
def c4wSt2 : St := { c4wSt with events := [Event.prim "m"] }

/-- A state with an ambient exception being handled. -/
def c6wSt : St := { initSt [] with lastErr := some (PyErr.exc "boom") }

/-
  Theorems, one per claim of the specification.
-/

set_option maxHeartbeats 3200000 in
/-- C1: for every combination of registered lifecycle hooks, run of task t
  with no arguments executes t_pre (when registered) before t, t_post (when
  registered) after t succeeds, and t_fin (when registered) last, and every
  hook lookup that finds no registered task is a silent no-op that does not
  fail the run. -/
theorem run_lifecycle_success_order :
    ∀ (hp hpo he hf : Bool),
    (runName 10 "t" [] (initSt (hookReg false hp hpo he hf))).map
        (fun r => (resCode r.1, primTrace r.2))
      = some (Option.none,
          (if hp then ["pre"] else []) ++ ["main"]
            ++ (if hpo then ["post"] else [])
            ++ (if hf then ["fin"] else [])) := by
  intro hp hpo he hf
  cases hp <;> cases hpo <;> cases he <;> cases hf <;>
    simp [runName, runFin, doRun, runTask, callUnit, transform, truthy,
      callable, St.log, okR, raiseR, initSt, hookReg, resCode, primTrace,
      List.lookup]

set_option maxHeartbeats 3200000 in
/-- C2: when the main task t raises, run of t completes without propagating
  the original error exactly when a t_err task is registered; when t_err is
  absent the original error propagates, and in either case a registered
  t_fin hook runs before run returns. -/
theorem run_err_hook_handling :
    ∀ (hp hpo he hf : Bool),
    (runName 10 "t" [] (initSt (hookReg true hp hpo he hf))).map
        (fun r => (resCode r.1, primTrace r.2))
      = some ((if he then Option.none else some (PyErr.exc "prim main failed")),
          (if hp then ["pre"] else []) ++ ["main"]
            ++ (if he then ["err"] else [])
            ++ (if hf then ["fin"] else [])) := by
  intro hp hpo he hf
  cases hp <;> cases hpo <;> cases he <;> cases hf <;>
    simp [runName, runFin, doRun, runTask, callUnit, transform, truthy,
      callable, St.log, okR, raiseR, initSt, hookReg, resCode, primTrace,
      List.lookup]

/-- C3: executing a Cmd built from the two templates echo a and echo b with
  the incoming positional argument x runs the templates in order, but the
  second executed command line is the second template followed by the FIRST
  template with the argument appended, because Cmd.__call__ rebinds its args
  variable inside the loop; the claimed command line (second template plus
  the incoming argument only) is not what is executed. -/
theorem cmd_later_templates_accumulate_args :
    resCode (cmdCall ["echo a", "echo b"] ["x"] (initSt [])).1 = Option.none ∧
    execTrace (cmdCall ["echo a", "echo b"] ["x"] (initSt [])).2
      = [["echo", "a", "x"], ["echo", "b", "echo", "a", "x"]] := by
  exact ⟨rfl, rfl⟩

/-- C4 counterexample: running a registered task whose body raises leaves
  the current-task name set to that task, although it was previously unset:
  the enter_task context manager does not restore conf curr_task when the
  task raises. -/
theorem curr_task_not_restored_on_error :
    (doRun 10 "t" [] (initSt [("t", PyVal.prim "main" true)])).map
        (fun r => r.2.currTask) = some (some "t") ∧
    (initSt [("t", PyVal.prim "main" true)]).currTask = Option.none := by
  exact ⟨rfl, rfl⟩

/-- C4 as amended: do_run sets the current-task name on entry and restores
  the previous value whenever the invocation finishes without raising (at
  any nesting depth, since the restore of each level runs on its normal
  exit); when the task raises, the name is left at the task most recently
  entered. -/
theorem do_run_restores_curr_task_on_success :
    ∀ (fuel : Nat) (name : String) (args : List String) (st : St) (b : Bool)
      (st2 : St),
    doRun fuel name args st = some (.ok b, st2) → st2.currTask = st.currTask := by
  intro fuel name args st b st2 h
  match fuel with
  | 0 => simp [doRun] at h
  | Nat.succ n =>
    unfold doRun at h
    split at h
    · simp only [okR, Option.some.injEq, Prod.mk.injEq] at h
      rw [← h.2]
    · split at h
      · simp only [okR, Option.some.injEq, Prod.mk.injEq] at h
        rw [← h.2]
      · dsimp only at h
        split at h
        · simp at h
        · simp only [okR, Option.some.injEq, Prod.mk.injEq] at h
          rw [← h.2]
        · simp [raiseR] at h

/-- C4 witness: the restoration theorem applied to a concrete one-task
  registry whose task succeeds. -/
theorem do_run_restores_curr_task_on_success_witness :
    c4wSt2.currTask = c4wSt.currTask :=
  do_run_restores_curr_task_on_success 5 "t" [] c4wSt true c4wSt2 (by rfl)

/-- C5: a string declaration that is a key of the task registry at
  normalization time is converted to a Task (NamedRef) unit, whose execution
  re-enters the dispatch engine for that name; only a string that is not a
  registry key is converted to a Cmd unit. -/
theorem string_decl_registry_precedence :
    ∀ (tasks : List (String × PyVal)) (s : String),
    ((tasks.lookup s).isSome → transform tasks (.str s) = .taskU s) ∧
    ((tasks.lookup s).isNone → transform tasks (.str s) = .cmdU [s]) ∧
    (∀ (fuel : Nat) (args : List String) (st : St),
      callUnit (fuel + 1) (PyVal.taskU s) args st = runName fuel s args st) := by
  intro tasks s
  refine ⟨?_, ?_, fun _ _ _ => rfl⟩
  · intro h
    simp [transform, h]
  · intro h
    simp [transform, Option.isNone_iff_eq_none.mp h]

/-- C5 witness: the precedence theorem applied to a registry containing the
  key build and to the empty registry. -/
theorem string_decl_registry_precedence_witness :
    transform [("build", PyVal.prim "b" false)] (.str "build") = .taskU "build" ∧
    transform [] (.str "build") = .cmdU ["build"] :=
  ⟨(string_decl_registry_precedence [("build", PyVal.prim "b" false)] "build").1
      (by decide),
   (string_decl_registry_precedence [] "build").2.1 (by decide)⟩

/-- C6 counterexample: the task converter leaves None unchanged (it is not
  an ErrorThrow unit), and executing a task declared as None silently
  succeeds with no observable effect instead of raising. -/
theorem none_decl_silently_skipped :
    isThrowU (transform [] PyVal.pyNone) = false ∧
    transform [] PyVal.pyNone = PyVal.pyNone ∧
    (runTask 5 PyVal.pyNone [] (initSt [])).map
        (fun r => (resCode r.1, r.2.events)) = some (Option.none, []) := by
  exact ⟨rfl, rfl, rfl⟩

/-- C6 as amended: a None declaration is left unchanged by the normalizer
  and run_task treats it (like every falsy task) as a silent no-op; only an
  ErrorThrow unit constructed explicitly with a falsy error re-raises the
  ambient propagating error when executed. -/
theorem none_decl_noop :
    ∀ (tasks : List (String × PyVal)) (fuel : Nat) (args : List String)
      (st : St) (e : PyErr),
    transform tasks PyVal.pyNone = PyVal.pyNone ∧
    runTask (fuel + 1) PyVal.pyNone args st = some (.ok (), st) ∧
    (st.lastErr = some e →
      callUnit (fuel + 1) (PyVal.throwU PyVal.pyNone) [] st
        = some (.error e, st)) := by
  intro tasks fuel args st e
  refine ⟨rfl, rfl, ?_⟩
  intro h
  simp [callUnit, truthy, h, raiseR]

/-- C6 witness: the re-raise part applied to a state with a concrete
  ambient exception. -/
theorem none_decl_noop_witness :
    callUnit 3 (PyVal.throwU PyVal.pyNone) [] c6wSt
      = some (.error (PyErr.exc "boom"), c6wSt) :=
  (none_decl_noop [] 2 [] c6wSt (PyErr.exc "boom")).2.2 (by rfl)

/-- C7 counterexample: executing the declarations False and 0 does not fail
  with any error: run_task returns silently without executing anything,
  because a falsy converted task is skipped. -/
theorem falsy_decl_not_error :
    (runTask 5 (PyVal.pyBool false) [] (initSt [])).map
        (fun r => (resCode r.1, r.2.events)) = some (Option.none, []) ∧
    (runTask 5 (PyVal.pyInt 0) [] (initSt [])).map
        (fun r => (resCode r.1, r.2.events)) = some (Option.none, []) := by
  exact ⟨rfl, rfl⟩

/-- C7 as amended: a declaration that no matcher recognizes is handled at
  execution time by run_task: a falsy one (False, 0) is silently skipped,
  while a truthy non-callable one (1, True) raises a generic Exception
  saying the value is not callable; there is no dedicated error class and
  no failure for the falsy shapes. -/
theorem unrecognized_decl_execution :
    ∀ (fuel : Nat) (st : St),
    runTask (fuel + 1) (PyVal.pyBool false) [] st = some (.ok (), st) ∧
    runTask (fuel + 1) (PyVal.pyInt 0) [] st = some (.ok (), st) ∧
    runTask (fuel + 1) (PyVal.pyInt 1) [] st
      = some (.error (.exc "1 is not callable"), st) ∧
    runTask (fuel + 1) (PyVal.pyBool true) [] st
      = some (.error (.exc "True is not callable"), st) := by
  intro fuel st
  exact ⟨rfl, rfl, rfl, rfl⟩

/-- C8: bumping the version of a file whose text contains the assignment
  version 1.2.3 with part minor rewrites only the first quoted version
  literal to 1.3.0, preserves all surrounding text including a later
  occurrence, and records old_version 1.2.3 and version 1.3.0; with the
  explicit literal 2.0.0-rc.1 that literal is written verbatim after
  validating as a semantic version, and an invalid literal is rejected. -/
theorem bump_minor_and_literal :
    bumpCall c8Text ["minor"]
      = some ⟨"foo = 1\n__version__ = \"1.3.0\"\nbar\n__version__ = \"9.9.9\"\n",
          "1.2.3", "1.3.0"⟩ ∧
    bumpCall c8Text ["2.0.0-rc.1"]
      = some ⟨"foo = 1\n__version__ = \"2.0.0-rc.1\"\nbar\n__version__ = \"9.9.9\"\n",
          "1.2.3", "2.0.0-rc.1"⟩ ∧
    bumpCall c8Text ["not a version"] = Option.none := by
  exact ⟨rfl, rfl, rfl⟩

/-- C9: a Try (ErrorSuppress) task over the children A and B where A raises
  logs the error of A, still executes B, and completes without raising, so
  the t_err hook of the enclosing task is never reached. -/
theorem try_suppresses_and_continues :
    (runName 10 "t" []
        { initSt [("t", PyVal.tryU [PyVal.prim "A" true, PyVal.prim "B" false]),
            ("t_err", PyVal.prim "err" false)] with tty := true }).map
        (fun r => (resCode r.1, r.2.events))
      = some (Option.none,
          [Event.printed "> Task: t", Event.prim "A",
           Event.printed "prim A failed", Event.prim "B"]) := by
  simp [runName, runFin, doRun, runTask, callUnit, runTryItems, transform,
    truthy, callable, errStr, St.log, okR, raiseR, initSt, resCode,
    List.lookup]

set_option maxHeartbeats 3200000 in
/-- C10: when the t_pre hook of a registered task t raises, run of t
  propagates that error immediately: the main task, the t_err hook and the
  t_fin hook are not executed, whether or not they are registered. -/
theorem pre_failure_aborts_run :
    ∀ (hpo he hf : Bool),
    (runName 10 "t" [] (initSt (preFailReg hpo he hf))).map
        (fun r => (resCode r.1, primTrace r.2))
      = some (some (PyErr.exc "prim pre failed"), ["pre"]) := by
  intro hpo he hf
  cases hpo <;> cases he <;> cases hf <;>
    simp [runName, runFin, doRun, runTask, callUnit, transform, truthy,
      callable, St.log, okR, raiseR, initSt, preFailReg, resCode, primTrace,
      List.lookup]

end Xcute
